import Mathlib

/-!
Shallow embedding of the protocol compiler of `lednet.js` (LEDnetWF 46CC
control utility): packet builders, sequence counter, checksum computation,
alarm-table encoders and the alarm-DSL fragments the verified claims touch.

Bytes are modelled as `Nat` with explicit `% 256` where JavaScript `Buffer`
construction or the `& 0xFF` mask truncates, and as `Int` where JavaScript
numbers may be negative before truncation. Strings handled by the alarm DSL
are modelled as `List Char`. Stateful code (the module-level `sequence`
counter) is modelled by explicit state passing: every builder takes the
current counter value and returns the frame together with the new counter.
-/

namespace LEDnet

/-- JavaScript ToUint8 truncation: the value stored by `Buffer.from([v])`
or `buf[i] = v`, and the result of `v & 0xFF` for any integer `v`.
`Int.emod` already returns the representative in `[0, 255]`. -/
def toByte (v : Int) : Nat := (v % 256).toNat

/-- The `clamp(value, min, max, defaultValue)` helper of `lednet.js`,
restricted to integer inputs (`parseInt` on an integer JavaScript number is
the identity). `none` models an `undefined`/`NaN` input, in which case the
default is used, falling back to `min` when no default was supplied. -/
def clamp (value : Option Int) (lo hi : Int) (dflt : Option Int) : Int :=
  match value with
  | none => dflt.getD lo
  | some v => max lo (min hi v)

/-! ### Protocol constants (`PROTOCOL_HEADERS`, `PROTOCOL`) -/

def POWER_HEADER : List Nat := [0x80, 0x00, 0x00, 0x0D, 0x0E, 0x0B, 0x3B]
def RGB_HEADER : List Nat := [0x80, 0x00, 0x00, 0x08, 0x09, 0x0B, 0x31]
def TIME_HEADER : List Nat := [0x80, 0x00, 0x00, 0x04, 0x05, 0x0A]
def EFFECT_HEADER : List Nat := [0x80, 0x00, 0x00, 0x05, 0x06, 0x0B, 0x38]
def CANDLE_HEADER : List Nat := [0x80, 0x00, 0x00, 0x09, 0x0A, 0x0B, 0x39, 0xD1]
def BASIC_TIMER_HEADER : List Nat := [0x80, 0x00, 0x00, 0x0C, 0x0D, 0x0B]
def EFFECT_TIMER_HEADER : List Nat := [0x80, 0x00, 0x00, 0x58, 0x59, 0x0B]

def POWER_ON : Nat := 0x23
def POWER_OFF : Nat := 0x24
def POWER_CHECKSUM_BASE : Nat := 0x26
def RGB_CHECKSUM_BASE : Nat := 0x38
def RGB_TERMINATOR : List Nat := [0x00, 0x00, 0x0F]
def POWER_PADDING_SIZE : Nat := 10
def ALARM_ACTION_POWER_ON : Nat := 0x01
def ALARM_ACTION_POWER_OFF : Nat := 0xF0
def ALARM_ACTION_RGB : Nat := 0x0F

/-! ### Sequence counter and frame base -/

/-- Initial value of the module-level `sequence` variable (`let sequence = 0`). -/
def initialSequence : Nat := 0

/-- The `nextSequence` closure: returns the current counter value and the new
counter state `(sequence + 1) & 0xFF`. -/
def nextSequence (s : Nat) : Nat × Nat := (s, (s + 1) % 256)

/-- `buildPacketBase(header, payload, checksumBase)`: consumes one sequence
value, computes `checksum = (seqByte + checksumBase) & 0xFF` and concatenates
`[0, seqByte] ++ header ++ payload ++ [checksum]`. Returns the frame and the
advanced counter. -/
def buildPacketBase (header payload : List Nat) (checksumBase : Nat) (s : Nat) :
    List Nat × Nat :=
  let seqByte := (nextSequence s).1
  let checksum := (seqByte + checksumBase) % 256
  ([0, seqByte % 256] ++ header ++ payload ++ [checksum], (nextSequence s).2)

/-- The sequence byte carried by a frame (second byte). -/
def frameSeq (frame : List Nat) : Nat := frame.getD 1 0

/-- The checksum byte of a frame (last byte). -/
def frameChecksum (frame : List Nat) : Nat := frame.getLastD 0

/-! ### Packet builders -/

def buildPowerPacket (turnOn : Bool) (s : Nat) : List Nat × Nat :=
  buildPacketBase POWER_HEADER
    ([if turnOn then POWER_ON else POWER_OFF] ++ List.replicate POWER_PADDING_SIZE 0)
    POWER_CHECKSUM_BASE s

def buildRgbPacket (r g b : Nat) (s : Nat) : List Nat × Nat :=
  buildPacketBase RGB_HEADER ([r % 256, g % 256, b % 256] ++ RGB_TERMINATOR)
    RGB_CHECKSUM_BASE s

def buildEffectPacket (effectId timeout brightness : Nat) (s : Nat) :
    List Nat × Nat :=
  buildPacketBase EFFECT_HEADER [effectId % 256, timeout % 256, brightness % 256]
    RGB_CHECKSUM_BASE s

/-- `buildTimePacket`: payload `[hh | 0x80, mm | 0x80, ss | 0x80]`. -/
def buildTimePacket (hh mm ss : Nat) (s : Nat) : List Nat × Nat :=
  buildPacketBase TIME_HEADER
    [Nat.lor hh 0x80 % 256, Nat.lor mm 0x80 % 256, Nat.lor ss 0x80 % 256]
    RGB_CHECKSUM_BASE s

def buildCandlePacket (amplitude speed brightness r g b : Int) (s : Nat) :
    List Nat × Nat :=
  let clampedAmplitude := clamp (some amplitude) 1 3 none
  let clampedSpeed := clamp (some speed) 1 100 none
  let clampedBrightness := clamp (some brightness) 1 100 none
  let clampedR := clamp (some r) 0 255 none
  let clampedG := clamp (some g) 0 255 none
  let clampedB := clamp (some b) 0 255 none
  let speedByte := 101 - clampedSpeed
  let brightnessByte := clampedBrightness
  buildPacketBase CANDLE_HEADER
    [toByte clampedR, toByte clampedG, toByte clampedB,
     toByte speedByte, toByte brightnessByte, toByte clampedAmplitude]
    RGB_CHECKSUM_BASE s

/-- `buildBasicAlarmPacket(alarmEntries)`: table marker `0x14`, then the
concatenated entries, or one all-zero 8-byte record when the list is empty.
The source passes `PROTOCOL.RGB_CHECKSUM_BASE` (0x38) as the checksum base. -/
def buildBasicAlarmPacket (alarmEntries : List (List Nat)) (s : Nat) :
    List Nat × Nat :=
  let entries :=
    if alarmEntries.length > 0 then alarmEntries.flatten else List.replicate 8 0
  buildPacketBase BASIC_TIMER_HEADER (0x14 :: entries) RGB_CHECKSUM_BASE s

/-- `buildEffectAlarmPacket(alarmEntries)`: no marker; the concatenated
entries, or one all-zero 16-byte record when the list is empty. The source
passes `PROTOCOL.RGB_CHECKSUM_BASE` (0x38) as the checksum base. -/
def buildEffectAlarmPacket (alarmEntries : List (List Nat)) (s : Nat) :
    List Nat × Nat :=
  let entries :=
    if alarmEntries.length > 0 then alarmEntries.flatten else List.replicate 16 0
  buildPacketBase EFFECT_TIMER_HEADER entries RGB_CHECKSUM_BASE s

/-! ### The operation model and `buildPacket` dispatch -/

inductive Operation where
  | power (turnOn : Bool)
  | rgb (red green blue : Nat)
  | effect (effectId speed brightness : Nat)
  | time (hh mm ss : Nat)
  | candle (amplitude speed brightness red green blue : Int)
  | basicAlarm (entries : List (List Nat))
  | effectAlarm (entries : List (List Nat))

/-- `buildPacket(operation)`: dispatch to the per-family builder. -/
def buildPacket (op : Operation) (s : Nat) : List Nat × Nat :=
  match op with
  | .power t => buildPowerPacket t s
  | .rgb r g b => buildRgbPacket r g b s
  | .effect id sp br => buildEffectPacket id sp br s
  | .time hh mm ss => buildTimePacket hh mm ss s
  | .candle a sp br r g b => buildCandlePacket a sp br r g b s
  | .basicAlarm es => buildBasicAlarmPacket es s
  | .effectAlarm es => buildEffectAlarmPacket es s

/-- Compile a list of operations in order, threading the sequence counter. -/
def compileAll : List Operation → Nat → List (List Nat) × Nat
  | [], s => ([], s)
  | op :: rest, s =>
    let p := buildPacket op s
    let r := compileAll rest p.2
    (p.1 :: r.1, r.2)

/-! ### RGB CLI color parsing (`parseRgbColor`) -/

/-- Channel transform applied by `parseRgbColor` to each comma-separated
value: `Number(value) & 0xFF`. For any integer this bitwise mask equals
reduction modulo 256 (256 divides 2^32, so the ToInt32 step is absorbed). -/
def rgbChannel (v : Int) : Nat := toByte v

/-- `parseRgbColor` on the already-split list of numeric channel values. -/
def parseRgbColor (vals : List Int) : List Nat := vals.map rgbChannel

/-! ### Alarm DSL fragments (`parseAlarmEntry`, the alarm branches of
`parseConfig`, and the alarm-entry builders)

Strings are modelled as `List Char`; `splitOnChar` mirrors JavaScript
`String.prototype.split` with a one-character separator (empty segments are
kept). -/

/-- JavaScript `s.split(sep)` for a single-character separator. -/
def splitOnChar (sep : Char) : List Char → List (List Char)
  | [] => [[]]
  | c :: rest =>
    match splitOnChar sep rest with
    | [] => [[]]
    | g :: gs => if c = sep then [] :: g :: gs else (c :: g) :: gs

/-- ASCII lowercasing of one character (the fragment of JavaScript
`toLowerCase` exercised by the alarm DSL). -/
def asciiToLower (c : Char) : Char :=
  if 'A' ≤ c ∧ c ≤ 'Z' then Char.ofNat (c.toNat + 32) else c

/-- Decimal digits of a leading-digit run, as consumed by `parseInt`. -/
def takeDigits : List Char → List Char
  | [] => []
  | c :: rest => if '0' ≤ c ∧ c ≤ '9' then c :: takeDigits rest else []

def digitsVal (ds : List Char) : Nat :=
  ds.foldl (fun acc c => 10 * acc + (c.toNat - '0'.toNat)) 0

/-- JavaScript `parseInt(s, 10)` on the strings the alarm DSL feeds it:
skip leading spaces, read an optional sign, then the longest run of decimal
digits; `none` models the NaN result when no digit is found. -/
def jsParseInt (s : List Char) : Option Int :=
  let t := s.dropWhile (fun c => c = ' ')
  match t with
  | '-' :: rest =>
    let ds := takeDigits rest
    if ds = [] then none else some (-(digitsVal ds : Int))
  | '+' :: rest =>
    let ds := takeDigits rest
    if ds = [] then none else some (digitsVal ds : Int)
  | _ =>
    let ds := takeDigits t
    if ds = [] then none else some (digitsVal ds : Int)

/-- The day-string guard of `parseAlarmEntry`: the regular expression
`^[01]{7}$` applied to a modifier token. -/
def isBinaryDayString (s : List Char) : Bool :=
  s.length = 7 && s.all (fun c => c = '0' || c = '1')

/-- JavaScript `parseInt(days, 2)` on a string matching `[01]{7}`. -/
def jsParseBase2 (s : List Char) : Nat :=
  s.foldl (fun acc c => 2 * acc + (if c = '1' then 1 else 0)) 0

/-- One structured alarm entry as produced by `parseAlarmEntry`: hour and
minute from the `HH:MM` token, the repeat mask from the day modifiers,
brightness from `#N` (default 100), speed from `%N` (default 50), and the
raw comma-separated parameter strings. -/
structure ParsedAlarm where
  hour : Nat
  minute : Nat
  repeatMask : Nat
  brightness : Int
  speed : Int
  params : List (List Char)

/-- `buildBasicAlarmEntry(dowMask, hour, minute, brightness, speed)`:
the 8-byte basic table record
`[dowMask, hour, minute, clamp(brightness,0,100,100), clamp(speed,0,100,50), 0x00, 0x0F, 0x00]`. -/
def buildBasicAlarmEntry (dowMask hour minute : Nat)
    (brightness speed : Option Int) : List Nat :=
  [dowMask % 256, hour % 256, minute % 256,
   toByte (clamp brightness 0 100 (some 100)),
   toByte (clamp speed 0 100 (some 50)),
   0x00, 0x0F, 0x00]

/-- `buildEffectAlarmEntry(dowMask, hour, minute, actionType, ...params)`:
the 16-byte effect table record. Bytes 4..7 depend on the action type
(RGB `0x0F`: r, g, b, brightness; effect ids `0x38..0x4C`: speed,
brightness); byte 15 is the end marker 0xF0. Missing rest-parameters are
`none` (JavaScript `undefined`). -/
def buildEffectAlarmEntry (dowMask hour minute actionType : Nat)
    (params : List (Option Int)) : List Nat :=
  let p := fun i => (params.getD i none)
  let mid : List Nat :=
    if actionType = ALARM_ACTION_RGB then
      [toByte (clamp (p 0) 0 255 none), toByte (clamp (p 1) 0 255 none),
       toByte (clamp (p 2) 0 255 none), toByte (clamp (p 3) 1 100 (some 100))]
    else if 0x38 ≤ actionType ∧ actionType ≤ 0x4C then
      [toByte (clamp (p 0) 1 100 (some 50)),
       toByte (clamp (p 1) 1 100 (some 100)), 0, 0]
    else
      [0, 0, 0, 0]
  [dowMask % 256, hour % 256, minute % 256, actionType % 256] ++ mid ++
    [0, 0, 0, 0, 0, 0, 0] ++ [0xF0]

/-- The `--alarm-on` branch of `parseConfig`: each parsed entry is turned
into a basic record via
`buildBasicAlarmEntry(entry.repeatMask, entry.hour, entry.minute, entry.brightness, 0)` —
the literal 0 is passed for speed, not the parsed `entry.speed`. -/
def alarmOnBasicEntry (e : ParsedAlarm) : List Nat :=
  buildBasicAlarmEntry e.repeatMask e.hour e.minute (some e.brightness) (some 0)

/-- The effect-alias table `EFFECT_ALIASES` (names are already lowercase). -/
def EFFECT_ALIASES : List (List Char × Nat) :=
  [(['f','a','d','e','7'], 0x25), (['s','t','r','o','b','e','7'], 0x30),
   (['j','u','m','p','7'], 0x38),
   (['r','e','d'], 0x26), (['g','r','e','e','n'], 0x27),
   (['b','l','u','e'], 0x28), (['y','e','l','l','o','w'], 0x29),
   (['c','y','a','n'], 0x2B), (['p','u','r','p','l','e'], 0x2A),
   (['w','h','i','t','e'], 0x2C),
   (['r','e','d','g','r','e','e','n'], 0x2D),
   (['r','e','d','b','l','u','e'], 0x2E),
   (['g','r','e','e','n','b','l','u','e'], 0x2F),
   (['r','e','d','s','t','r','o','b','e'], 0x31),
   (['g','r','e','e','n','s','t','r','o','b','e'], 0x32),
   (['b','l','u','e','s','t','r','o','b','e'], 0x33),
   (['y','e','l','l','o','w','s','t','r','o','b','e'], 0x34),
   (['c','y','a','n','s','t','r','o','b','e'], 0x35),
   (['p','u','r','p','l','e','s','t','r','o','b','e'], 0x36),
   (['w','h','i','t','e','s','t','r','o','b','e'], 0x37)]

/-- Outcome of processing one `--alarm-effect` entry: either a 16-byte
record is pushed onto `effectAlarms`, or the process exits with an error. -/
inductive EffectAlarmResult where
  | pushed (entry : List Nat)
  | exitError
deriving DecidableEq

/-- The joined, lowercased effect parameter:
`entry.params.join(',').toLowerCase()`. -/
def effectParamOf (params : List (List Char)) : List Char :=
  (List.intercalate [','] params).map asciiToLower

/-- The body of the `--alarm-effect` loop of `parseConfig`, applied to one
parsed entry and its joined effect parameter string: an empty effect name is
an error; a `name:R,G,B,...` form (colon with at least three comma-separated
values after it) pushes an RGB record (action type 0x0F) built from the
clamped parsed color values without consulting the alias table; otherwise
the name is resolved through `EFFECT_ALIASES` (unknown name: error) and an
effect record is pushed. -/
def processEffectParam (e : ParsedAlarm) (effectParam : List Char) :
    EffectAlarmResult :=
  let effectName := (splitOnChar ':' effectParam).headD []
  if effectName = [] then .exitError
  else if effectParam.contains ':' then
    let customParams := splitOnChar ',' ((splitOnChar ':' effectParam).getD 1 [])
    if 3 ≤ customParams.length then
      let red := clamp (jsParseInt (customParams.getD 0 [])) 0 255 (some 255)
      let green := clamp (jsParseInt (customParams.getD 1 [])) 0 255 (some 255)
      let blue := clamp (jsParseInt (customParams.getD 2 [])) 0 255 (some 255)
      .pushed (buildEffectAlarmEntry e.repeatMask e.hour e.minute
        ALARM_ACTION_RGB [some red, some green, some blue, some e.brightness])
    else
      match (EFFECT_ALIASES.lookup effectName).filter (fun id => id != 0) with
      | some effectId =>
        .pushed (buildEffectAlarmEntry e.repeatMask e.hour e.minute
          effectId [some e.speed, some e.brightness])
      | none => .exitError
  else
    match (EFFECT_ALIASES.lookup effectName).filter (fun id => id != 0) with
    | some effectId =>
      .pushed (buildEffectAlarmEntry e.repeatMask e.hour e.minute
        effectId [some e.speed, some e.brightness])
    | none => .exitError

/-- Processing of one `--alarm-effect` entry from its parsed form. -/
def processEffectAlarmEntry (e : ParsedAlarm) : EffectAlarmResult :=
  processEffectParam e (effectParamOf e.params)

/-! ### Helper lemmas -/

theorem clamp_of_mem (v lo hi : Int) (d : Option Int)
    (h1 : lo ≤ v) (h2 : v ≤ hi) : clamp (some v) lo hi d = v := by
  simp only [clamp]
  omega

theorem toByte_of_range (v : Int) (h1 : 0 ≤ v) (h2 : v < 256) :
    toByte v = v.toNat := by
  simp only [toByte]
  rw [Int.emod_eq_of_lt h1 h2]

theorem getLastD_append_singleton (l : List Nat) (x d : Nat) :
    (l ++ [x]).getLastD d = x := by
  simp [List.getLastD_eq_getLast?, List.getLast?_concat]

theorem frameChecksum_buildPacketBase (h p : List Nat) (b s : Nat) :
    frameChecksum (buildPacketBase h p b s).1 = (s + b) % 256 := by
  show ((([0, s % 256] ++ h) ++ p) ++ [(s + b) % 256]).getLastD 0 = (s + b) % 256
  exact getLastD_append_singleton _ _ _

theorem frameSeq_buildPacketBase (h p : List Nat) (b s : Nat) :
    frameSeq (buildPacketBase h p b s).1 = s % 256 := rfl

theorem snd_buildPacketBase (h p : List Nat) (b s : Nat) :
    (buildPacketBase h p b s).2 = (s + 1) % 256 := rfl

end LEDnet

namespace LEDnet

/-- C1: the basic-timer (BasicAlarmTable) family does NOT use checksum bias
0x26 in the code: `buildBasicAlarmPacket` passes `RGB_CHECKSUM_BASE` (0x38)
to `buildPacketBase`, so every basic-timer frame carries checksum
`(sequence + 0x38) mod 256` — at sequence 0 the checksum byte is 0x38, not
the 0x26 demanded by the claim and by the repository's own protocol notes.
The effect-timer family also uses 0x38, as the claim states. -/
theorem C1_basic_timer_checksum_bias :
    (∀ (entries : List (List Nat)) (s : Nat),
        frameChecksum (buildBasicAlarmPacket entries s).1 = (s + 0x38) % 256) ∧
    (∀ (entries : List (List Nat)) (s : Nat),
        frameChecksum (buildEffectAlarmPacket entries s).1 = (s + 0x38) % 256) ∧
    frameChecksum (buildBasicAlarmPacket [] 0).1 = 0x38 ∧
    frameChecksum (buildBasicAlarmPacket [] 0).1 ≠ 0x26 := by
  refine ⟨fun entries s => ?_, fun entries s => ?_, by decide, by decide⟩
  · exact frameChecksum_buildPacketBase _ _ _ _
  · exact frameChecksum_buildPacketBase _ _ _ _

/-- C2 counterexample: compiling `Rgb(255, 0, 255)` at sequence 0x22 does
not produce the claimed frame ending in checksum byte 0x3E. -/
theorem C2_counterexample :
    (buildRgbPacket 255 0 255 0x22).1 ≠
      [0x00, 0x22, 0x80, 0x00, 0x00, 0x08, 0x09, 0x0B, 0x31,
       0xFF, 0x00, 0xFF, 0x00, 0x00, 0x0F, 0x3E] := by decide

/-- C2 amended: compiling `Rgb(255, 0, 255)` at sequence 0x22 yields the
16-byte frame `00 22 80 00 00 08 09 0B 31 FF 00 FF 00 00 0F 5A` — identical
to the claimed frame except the final checksum byte, which the code computes
as `(0x22 + 0x38) & 0xFF = 0x5A`. -/
theorem C2_rgb_frame_at_seq_0x22 :
    (buildRgbPacket 255 0 255 0x22).1 =
      [0x00, 0x22, 0x80, 0x00, 0x00, 0x08, 0x09, 0x0B, 0x31,
       0xFF, 0x00, 0xFF, 0x00, 0x00, 0x0F, 0x5A] ∧
    (buildRgbPacket 255 0 255 0x22).1.length = 16 ∧
    frameChecksum (buildRgbPacket 255 0 255 0x22).1 =
      (0x22 + RGB_CHECKSUM_BASE) % 256 := by decide

/-- C5 counterexample: an out-of-range RGB channel is not clamped — the
channel value 300 is masked to 44 (not 255) and -5 is masked to 251 (not 0). -/
theorem C5_counterexample :
    rgbChannel 300 = 44 ∧ rgbChannel 300 ≠ 255 ∧
    rgbChannel (-5) = 251 ∧ rgbChannel (-5) ≠ 0 := by decide

/-- C5 amended: an out-of-range RGB channel value supplied to the Rgb color
operation is never fatal, but it is reduced modulo 256 (`& 0xFF`), not
clamped: the result is always in 0..255, equals the value mod 256, and is
periodic with period 256 (so 300 becomes 44 and -5 becomes 251). -/
theorem C5_rgb_channel_masked (v : Int) :
    rgbChannel v ≤ 255 ∧
    (rgbChannel v : Int) = v % 256 ∧
    rgbChannel (v + 256) = rgbChannel v ∧
    parseRgbColor [v] = [rgbChannel v] := by
  refine ⟨?_, ?_, ?_, rfl⟩
  · simp only [rgbChannel, toByte]
    omega
  · simp only [rgbChannel, toByte]
    omega
  · simp only [rgbChannel, toByte, Int.add_mul_emod_self_left]
    omega

/-- C6: compiling `Power(on=true)` at sequence 0x19 yields exactly the
21-byte frame `00 19 80 00 00 0D 0E 0B 3B 23` followed by ten zero bytes and
checksum `(0x19 + 0x26) mod 256 = 0x3F`. -/
theorem C6_power_on_frame_at_seq_0x19 :
    (buildPowerPacket true 0x19).1 =
      [0x00, 0x19] ++ POWER_HEADER ++ (0x23 :: List.replicate 10 0) ++ [0x3F] ∧
    (buildPowerPacket true 0x19).1.length = 21 ∧
    frameChecksum (buildPowerPacket true 0x19).1 =
      (0x19 + POWER_CHECKSUM_BASE) % 256 := by decide

/-- C7: table-encoding an empty alarm-entry list always yields exactly one
zero-filled record: the basic table payload is the marker 0x14 followed by
one all-zero 8-byte record, and the effect table payload is one all-zero
16-byte record with no leading marker. -/
theorem C7_empty_alarm_tables (s : Nat) :
    (buildBasicAlarmPacket [] s).1 =
      [0, s % 256] ++ BASIC_TIMER_HEADER ++ (0x14 :: List.replicate 8 0) ++
        [(s + RGB_CHECKSUM_BASE) % 256] ∧
    (buildEffectAlarmPacket [] s).1 =
      [0, s % 256] ++ EFFECT_TIMER_HEADER ++ List.replicate 16 0 ++
        [(s + RGB_CHECKSUM_BASE) % 256] :=
  ⟨rfl, rfl⟩

/-- C8: for in-range Candle parameters the compiled frame's 6-byte payload
is `[r, g, b, 101 - speed, brightness, amplitude]` — the transmitted speed
byte is the inversion 101 minus the requested speed, while r, g, b,
brightness and amplitude are transmitted as given. -/
theorem C8_candle_payload (amplitude speed brightness r g b : Int) (s : Nat)
    (ha1 : 1 ≤ amplitude) (ha2 : amplitude ≤ 3)
    (hs1 : 1 ≤ speed) (hs2 : speed ≤ 100)
    (hb1 : 1 ≤ brightness) (hb2 : brightness ≤ 100)
    (hr1 : 0 ≤ r) (hr2 : r ≤ 255)
    (hg1 : 0 ≤ g) (hg2 : g ≤ 255)
    (hbl1 : 0 ≤ b) (hbl2 : b ≤ 255) :
    (buildCandlePacket amplitude speed brightness r g b s).1 =
      [0, s % 256] ++ CANDLE_HEADER ++
        [r.toNat, g.toNat, b.toNat, (101 - speed).toNat, brightness.toNat,
         amplitude.toNat] ++ [(s + RGB_CHECKSUM_BASE) % 256] := by
  simp only [buildCandlePacket,
    clamp_of_mem amplitude 1 3 none ha1 ha2,
    clamp_of_mem speed 1 100 none hs1 hs2,
    clamp_of_mem brightness 1 100 none hb1 hb2,
    clamp_of_mem r 0 255 none hr1 hr2,
    clamp_of_mem g 0 255 none hg1 hg2,
    clamp_of_mem b 0 255 none hbl1 hbl2]
  rw [toByte_of_range r hr1 (by omega),
    toByte_of_range g hg1 (by omega),
    toByte_of_range b hbl1 (by omega),
    toByte_of_range (101 - speed) (by omega) (by omega),
    toByte_of_range brightness (by omega) (by omega),
    toByte_of_range amplitude (by omega) (by omega)]
  rfl

/-- C8 witness: the in-range instance amplitude 2, speed 50, brightness 100,
color (255, 128, 0) at sequence 0 — transmitted speed byte is 51. -/
theorem C8_candle_payload_witness :
    (buildCandlePacket 2 50 100 255 128 0 0).1 =
      [0, 0 % 256] ++ CANDLE_HEADER ++
        [(255 : Int).toNat, (128 : Int).toNat, (0 : Int).toNat,
         ((101 : Int) - 50).toNat, (100 : Int).toNat, (2 : Int).toNat] ++
        [(0 + RGB_CHECKSUM_BASE) % 256] :=
  C8_candle_payload 2 50 100 255 128 0 0
    (by decide) (by decide) (by decide) (by decide) (by decide) (by decide)
    (by decide) (by decide) (by decide) (by decide) (by decide) (by decide)

end LEDnet

namespace LEDnet

theorem buildPacket_snd (op : Operation) (s : Nat) :
    (buildPacket op s).2 = (s + 1) % 256 := by
  cases op <;> rfl

theorem frameSeq_buildPacket (op : Operation) (s : Nat) :
    frameSeq (buildPacket op s).1 = s % 256 := by
  cases op <;> rfl

theorem compileAll_snd (ops : List Operation) (s : Nat) (hs : s < 256) :
    (compileAll ops s).2 = (s + ops.length) % 256 := by
  induction ops generalizing s with
  | nil =>
    simp only [compileAll, List.length_nil]
    omega
  | cons op rest ih =>
    show (compileAll rest (buildPacket op s).2).2 = _
    rw [buildPacket_snd, ih ((s + 1) % 256) (Nat.mod_lt _ (by norm_num))]
    simp only [List.length_cons]
    omega

theorem compileAll_frameSeq (ops : List Operation) (s i : Nat)
    (hs : s < 256) (hi : i < ops.length) :
    frameSeq ((compileAll ops s).1.getD i []) = (s + i) % 256 := by
  induction ops generalizing s i with
  | nil => simp at hi
  | cons op rest ih =>
    cases i with
    | zero =>
      show frameSeq (buildPacket op s).1 = _
      rw [frameSeq_buildPacket]
      omega
    | succ i =>
      show frameSeq ((compileAll rest (buildPacket op s).2).1.getD i []) = _
      rw [buildPacket_snd,
        ih ((s + 1) % 256) i (Nat.mod_lt _ (by norm_num))
          (by simpa using Nat.lt_of_succ_lt_succ hi)]
      omega

/-- C3: the sequence counter starts at 0; every compile of one operation
advances it by exactly 1 modulo 256 while the frame carries the
pre-increment value; compiling 256 frames returns the counter to its start;
and within a run started at the initial counter no two frames whose indices
differ by fewer than 256 carry the same sequence value. -/
theorem C3_sequence_counter :
    initialSequence = 0 ∧
    (∀ (op : Operation) (s : Nat), (buildPacket op s).2 = (s + 1) % 256) ∧
    (∀ (op : Operation) (s : Nat), frameSeq (buildPacket op s).1 = s % 256) ∧
    (∀ ops : List Operation, ops.length = 256 →
        (compileAll ops initialSequence).2 = initialSequence) ∧
    (∀ (ops : List Operation) (i j : Nat), i < ops.length → j < ops.length →
        i ≠ j → i - j < 256 → j - i < 256 →
        frameSeq ((compileAll ops initialSequence).1.getD i []) ≠
          frameSeq ((compileAll ops initialSequence).1.getD j [])) := by
  refine ⟨rfl, buildPacket_snd, frameSeq_buildPacket, ?_, ?_⟩
  · intro ops h
    rw [compileAll_snd ops initialSequence (by decide), h]
    decide
  · intro ops i j hi hj hij h1 h2
    rw [compileAll_frameSeq ops initialSequence i (by decide) hi,
      compileAll_frameSeq ops initialSequence j (by decide) hj]
    simp only [initialSequence]
    omega

/-- C3 witness: a run of 256 power frames returns the counter to 0, and in a
two-frame run the two frames carry different sequence values. -/
theorem C3_sequence_counter_witness :
    (compileAll (List.replicate 256 (Operation.power true)) initialSequence).2 =
      initialSequence ∧
    frameSeq ((compileAll [Operation.power true, Operation.power false]
        initialSequence).1.getD 0 []) ≠
      frameSeq ((compileAll [Operation.power true, Operation.power false]
        initialSequence).1.getD 1 []) :=
  ⟨C3_sequence_counter.2.2.2.1 _ (List.length_replicate 256 _),
   C3_sequence_counter.2.2.2.2 [Operation.power true, Operation.power false]
     0 1 (by decide) (by decide) (by decide) (by decide) (by decide)⟩

end LEDnet

namespace LEDnet

theorem splitOnChar_ne_nil (c : Char) (s : List Char) : splitOnChar c s ≠ [] := by
  cases s with
  | nil => simp [splitOnChar]
  | cons a t =>
    simp only [splitOnChar]
    split
    · simp
    · split <;> simp

theorem splitOnChar_of_not_mem (c : Char) (s : List Char) (h : c ∉ s) :
    splitOnChar c s = [s] := by
  induction s with
  | nil => rfl
  | cons a t ih =>
    have hat : c ∉ t := fun hm => h (List.mem_cons_of_mem _ hm)
    have hac : ¬ a = c := fun e => h (by simp [e])
    simp [splitOnChar, ih hat, hac]

theorem splitOnChar_append (c : Char) (name rest : List Char) (h : c ∉ name) :
    splitOnChar c (name ++ c :: rest) = name :: splitOnChar c rest := by
  induction name with
  | nil =>
    show splitOnChar c (c :: rest) = [] :: splitOnChar c rest
    rcases hr : splitOnChar c rest with _ | ⟨g, gs⟩
    · exact absurd hr (splitOnChar_ne_nil c rest)
    · simp [splitOnChar, hr]
  | cons a t ih =>
    have hat : c ∉ t := fun hm => h (List.mem_cons_of_mem _ hm)
    have hac : ¬ a = c := fun e => h (by simp [e])
    show splitOnChar c (a :: (t ++ c :: rest)) = (a :: t) :: splitOnChar c rest
    simp only [splitOnChar]
    rw [ih hat]
    simp [hac]

/-- C4 counterexample: the 7-character day string `1000000` is accepted by
the parser and its leftmost character is `1`, yet the resulting mask is 64
(0x40, the Sunday bit): day-of-week bit 0 (Monday) is NOT set, contradicting
the claimed left-to-right Monday-first bit order. -/
theorem C4_counterexample :
    isBinaryDayString ['1', '0', '0', '0', '0', '0', '0'] = true ∧
    ['1', '0', '0', '0', '0', '0', '0'].getD 0 '0' = '1' ∧
    jsParseBase2 ['1', '0', '0', '0', '0', '0', '0'] = 64 ∧
    Nat.testBit (jsParseBase2 ['1', '0', '0', '0', '0', '0', '0']) 0 = false := by
  decide

/-- C4 amended: for every 7-character binary day string accepted by the
alarm parser, the string is parsed as base-2 into the low 7 bits of the day
mask, so the characters map left-to-right to Sunday down to Monday: the
character at position i from the left sets day-of-week bit 6 - i (position
0 = Sunday bit 6, position 6 = Monday bit 0). -/
theorem C4_day_string_bits (s : List Char) (h : isBinaryDayString s = true) :
    jsParseBase2 s < 128 ∧
    ∀ i, i < 7 →
      (Nat.testBit (jsParseBase2 s) (6 - i) = true ↔ s.getD i '0' = '1') := by
  simp only [isBinaryDayString, Bool.and_eq_true, decide_eq_true_eq,
    List.all_eq_true, Bool.or_eq_true] at h
  obtain ⟨hlen, hall⟩ := h
  rcases s with _ | ⟨c0, s⟩
  · simp only [List.length_nil] at hlen
    omega
  rcases s with _ | ⟨c1, s⟩
  · simp only [List.length_cons, List.length_nil] at hlen
    omega
  rcases s with _ | ⟨c2, s⟩
  · simp only [List.length_cons, List.length_nil] at hlen
    omega
  rcases s with _ | ⟨c3, s⟩
  · simp only [List.length_cons, List.length_nil] at hlen
    omega
  rcases s with _ | ⟨c4, s⟩
  · simp only [List.length_cons, List.length_nil] at hlen
    omega
  rcases s with _ | ⟨c5, s⟩
  · simp only [List.length_cons, List.length_nil] at hlen
    omega
  rcases s with _ | ⟨c6, s⟩
  · simp only [List.length_cons, List.length_nil] at hlen
    omega
  rcases s with _ | ⟨c7, s⟩
  swap
  · simp only [List.length_cons] at hlen
    omega
  have h0 := hall c0 (by simp)
  have h1 := hall c1 (by simp)
  have h2 := hall c2 (by simp)
  have h3 := hall c3 (by simp)
  have h4 := hall c4 (by simp)
  have h5 := hall c5 (by simp)
  have h6 := hall c6 (by simp)
  clear hall hlen
  rcases h0 with rfl | rfl <;> rcases h1 with rfl | rfl <;>
    rcases h2 with rfl | rfl <;> rcases h3 with rfl | rfl <;>
    rcases h4 with rfl | rfl <;> rcases h5 with rfl | rfl <;>
    rcases h6 with rfl | rfl <;> decide

/-- C4 witness: the weekday string `0011111` is accepted; by the amended
mapping, position 2 from the left sets bit 4 (Friday). -/
theorem C4_day_string_bits_witness :
    isBinaryDayString ['0', '0', '1', '1', '1', '1', '1'] = true ∧
    jsParseBase2 ['0', '0', '1', '1', '1', '1', '1'] < 128 ∧
    (Nat.testBit (jsParseBase2 ['0', '0', '1', '1', '1', '1', '1']) 4 = true ↔
      ['0', '0', '1', '1', '1', '1', '1'].getD 2 '0' = '1') :=
  ⟨by decide, (C4_day_string_bits _ (by decide)).1,
   (C4_day_string_bits _ (by decide)).2 2 (by decide)⟩

/-- C9: the record pushed for a `--alarm-on` alarm is 8 bytes, its speed
byte (byte 4) is always 0, and it does not depend on the speed value parsed
from a %N modifier: `parseConfig` passes the literal 0 for speed. -/
theorem C9_alarm_on_speed_zero (e : ParsedAlarm) :
    (alarmOnBasicEntry e).length = 8 ∧
    (alarmOnBasicEntry e).getD 4 0 = 0 ∧
    ∀ (h m mask : Nat) (bri sp1 sp2 : Int) (ps : List (List Char)),
      alarmOnBasicEntry ⟨h, m, mask, bri, sp1, ps⟩ =
        alarmOnBasicEntry ⟨h, m, mask, bri, sp2, ps⟩ := by
  refine ⟨rfl, ?_, fun h m mask bri sp1 sp2 ps => rfl⟩
  show toByte (clamp (some 0) 0 100 (some 50)) = 0
  decide

/-- C10: for every effect-alarm entry whose effect parameter has the form
`name:rest` with a nonempty colon-free name and at least three
comma-separated values in `rest`, processing pushes an effect-table record
with action type 0x0F (RGB) built from the clamped parsed color values and
the entry brightness — for any name whatsoever, known alias or not, and
never exits with an error. -/
theorem C10_effect_alarm_custom_color (e : ParsedAlarm) (name rest : List Char)
    (hne : name ≠ []) (hnc : ':' ∉ name) (hrc : ':' ∉ rest)
    (hlen : 3 ≤ (splitOnChar ',' rest).length) :
    processEffectParam e (name ++ ':' :: rest) =
      .pushed (buildEffectAlarmEntry e.repeatMask e.hour e.minute
        ALARM_ACTION_RGB
        [some (clamp (jsParseInt ((splitOnChar ',' rest).getD 0 [])) 0 255 (some 255)),
         some (clamp (jsParseInt ((splitOnChar ',' rest).getD 1 [])) 0 255 (some 255)),
         some (clamp (jsParseInt ((splitOnChar ',' rest).getD 2 [])) 0 255 (some 255)),
         some e.brightness]) ∧
    (buildEffectAlarmEntry e.repeatMask e.hour e.minute ALARM_ACTION_RGB
        [some (clamp (jsParseInt ((splitOnChar ',' rest).getD 0 [])) 0 255 (some 255)),
         some (clamp (jsParseInt ((splitOnChar ',' rest).getD 1 [])) 0 255 (some 255)),
         some (clamp (jsParseInt ((splitOnChar ',' rest).getD 2 [])) 0 255 (some 255)),
         some e.brightness]).getD 3 0 = 0x0F ∧
    processEffectParam e (name ++ ':' :: rest) ≠ EffectAlarmResult.exitError := by
  have hsplit : splitOnChar ':' (name ++ ':' :: rest) = name :: splitOnChar ':' rest :=
    splitOnChar_append ':' name rest hnc
  have hrest : splitOnChar ':' rest = [rest] := splitOnChar_of_not_mem ':' rest hrc
  have hcontains : (name ++ ':' :: rest).contains ':' = true := by
    simp
  have hmain : processEffectParam e (name ++ ':' :: rest) =
      .pushed (buildEffectAlarmEntry e.repeatMask e.hour e.minute
        ALARM_ACTION_RGB
        [some (clamp (jsParseInt ((splitOnChar ',' rest).getD 0 [])) 0 255 (some 255)),
         some (clamp (jsParseInt ((splitOnChar ',' rest).getD 1 [])) 0 255 (some 255)),
         some (clamp (jsParseInt ((splitOnChar ',' rest).getD 2 [])) 0 255 (some 255)),
         some e.brightness]) := by
    simp only [processEffectParam, hsplit, hrest, hcontains, List.headD_cons]
    rw [if_neg hne]
    simp only [if_true, List.getD, List.get?, Option.getD_some]
    rw [if_pos hlen]
  refine ⟨hmain, rfl, ?_⟩
  rw [hmain]
  intro hcontra
  exact EffectAlarmResult.noConfusion hcontra

/-- C10 witness: an entry written with the unknown effect name `nosuch` and
colors 10,20,30 is accepted, not an error. -/
theorem C10_effect_alarm_custom_color_witness :
    processEffectParam ⟨19, 0, 0x7F, 90, 50, []⟩
        (['n', 'o', 's', 'u', 'c', 'h'] ++ ':' ::
          ['1', '0', ',', '2', '0', ',', '3', '0']) ≠
      EffectAlarmResult.exitError :=
  (C10_effect_alarm_custom_color ⟨19, 0, 0x7F, 90, 50, []⟩
    ['n', 'o', 's', 'u', 'c', 'h'] ['1', '0', ',', '2', '0', ',', '3', '0']
    (by decide) (by decide) (by decide) (by decide)).2.2

end LEDnet
